import Mathlib

/-
  Verification of the tg_lesson_1 chat-bot scripts.

  Shallow embedding of the handler logic of dz.py, dz3.py and main.py:
  pure parts are translated directly; the aiogram dispatch loop, the FSM
  storage and the sqlite table are made explicit state; outbound HTTP
  calls are modelled by passing their outcome as an argument; Python
  exceptions become an explicit error type threaded through `Except`.
-/

namespace TgLesson

/-! ## Python exception taxonomy used by the handlers -/

/-- Exceptions raised and caught in the scripts: `aiohttp.ClientError`,
`asyncio.TimeoutError`, `TypeError`, `RuntimeError(msg)`, `ValueError(msg)`. -/
inductive PyExn where
  | clientError
  | timeoutError
  | typeError
  | runtimeError (msg : String)
  | valueError (msg : String)
deriving DecidableEq, Repr

/-! ## dz.py — the guided dialogue collector

`Form` is a `StatesGroup` with states `name`, `age`, `grade`; messages are
dispatched by registration order: `CommandStart()` first, then the three
state-filtered handlers.  A text message while no state is set matches no
handler.  FSM data lives in `MemoryStorage`; `update_data` merges keys;
the completed record is inserted into the sqlite `users` table. -/

/-- The aiogram FSM state of one chat: no state set yet (fresh session),
or one of the three `Form` states. -/
inductive FormStep where
  | idle
  | awaitingName
  | awaitingAge
  | awaitingGrade
deriving DecidableEq, Repr

/-- The per-chat FSM storage: the keys `name`, `age`, `grade` written by
`state.update_data`, each absent until first written. -/
structure FormData where
  name : Option String
  age : Option String
  grade : Option String
deriving DecidableEq, Repr

/-- One chat's whole observable state for dz.py: the FSM step, the FSM
data, the replies sent so far, and the rows inserted into the durable
`users` table (in order). -/
structure DzState where
  step : FormStep
  data : FormData
  replies : List String
  inserts : List (String × String × String)
deriving DecidableEq, Repr

/-- Fresh session: no FSM state, empty data, nothing sent, empty table. -/
def dzInit : DzState :=
  { step := FormStep.idle
    data := { name := none, age := none, grade := none }
    replies := []
    inserts := [] }

/-- `CommandStart()` filter: the message is the `/start` command
(optionally with arguments). -/
def isStartCommand (s : String) : Bool :=
  s == "/start" || s.startsWith "/start "

/-- Dispatch of one inbound text message in dz.py, in handler
registration order: `start` on `CommandStart()`, then the `Form.name`,
`Form.age`, `Form.grade` handlers; a non-command text with no state set
matches no handler.  `start` answers the name prompt and sets
`Form.name` — it does NOT clear the FSM data.  The `grade` handler
inserts the accumulated record and leaves the state at `Form.grade`. -/
def dzHandle (st : DzState) (msg : String) : DzState :=
  if isStartCommand msg then
    { st with
      replies := st.replies ++ ["Привет! Как тебя зовут?"]
      step := FormStep.awaitingName }
  else
    match st.step with
    | FormStep.idle => st
    | FormStep.awaitingName =>
        { st with
          data := { st.data with name := some msg }
          replies := st.replies ++ ["Сколько тебе лет?"]
          step := FormStep.awaitingAge }
    | FormStep.awaitingAge =>
        { st with
          data := { st.data with age := some msg }
          replies := st.replies ++ ["В каком классе ты учишься?"]
          step := FormStep.awaitingGrade }
    | FormStep.awaitingGrade =>
        let d : FormData := { st.data with grade := some msg }
        match d.name, d.age with
        | some n, some a =>
            { st with data := d, inserts := st.inserts ++ [(n, a, msg)] }
        | _, _ =>
            -- user_data['name'] / user_data['age'] would raise KeyError;
            -- unreachable from dzInit because Form.grade is only entered
            -- through the name and age handlers.
            { st with data := d }

/-- Run a sequence of inbound messages against a fresh dz.py session. -/
def dzRun (msgs : List String) : DzState :=
  msgs.foldl dzHandle dzInit

/-- The session data holds exactly one more field, set to `t`, all other
fields unchanged (the contract "exactly one field is written"). -/
def updatesExactlyOneField (old new : FormData) (t : String) : Prop :=
  new = { old with name := some t } ∨
  new = { old with age := some t } ∨
  new = { old with grade := some t }

/-! ## JSON scalar values as seen by the Python handlers -/

/-- A scalar from a decoded JSON payload: `null` (Python `None`), a
number, or a string. -/
inductive JsonVal where
  | null
  | num (n : Int)
  | str (s : String)
deriving DecidableEq, Repr

/-- How a scalar renders inside a Python f-string. -/
def pyStr : JsonVal → String
  | JsonVal.null => "None"
  | JsonVal.num n => toString n
  | JsonVal.str s => s

/-- Python truthiness of `current.get(key)`: absent and `null` give
`None` (falsy); `0` and `""` are falsy too. -/
def pyTruthy : Option JsonVal → Bool
  | none => false
  | some JsonVal.null => false
  | some (JsonVal.num n) => n != 0
  | some (JsonVal.str s) => s != ""

/-- Python `x is not None` for `current.get(key)`: absent and JSON
`null` both decode to `None`. -/
def isNotNone : Option JsonVal → Bool
  | none => false
  | some JsonVal.null => false
  | some _ => true

/-- ASCII whitespace stripped by Python `str.strip()`. -/
def isPySpace (c : Char) : Bool :=
  c == ' ' || c == '\t' || c == '\n' || c == '\r' || c == '\x0b' || c == '\x0c'

/-- Python `s.strip()`: drop leading and trailing whitespace.  (Only the
ASCII whitespace characters are modelled.) -/
def pyStrip (s : String) : String :=
  String.mk (((s.toList.dropWhile isPySpace).reverse.dropWhile isPySpace).reverse)

/-- Python `int(s)` on a string: optional surrounding whitespace, an
optional sign and a nonempty run of decimal digits; anything else raises
`ValueError`.  (Underscore separators and non-ASCII digits, which CPython
also accepts, are not modelled.) -/
def pyStrToInt (s : String) : Option Int :=
  let cs := (pyStrip s).toList
  let signedDigits : Bool × List Char :=
    match cs with
    | '-' :: rest => (true, rest)
    | '+' :: rest => (false, rest)
    | _ => (false, cs)
  if !signedDigits.2.isEmpty && signedDigits.2.all Char.isDigit then
    let n : Nat := signedDigits.2.foldl (fun acc c => 10 * acc + (c.toNat - 48)) 0
    some (if signedDigits.1 then -(n : Int) else (n : Int))
  else none

/-- Python `int(x)` on `current.get("weather_code")`: `None` (absent or
JSON null) raises `TypeError`, a number converts, a string parses or
raises `ValueError`. -/
def pyInt : Option JsonVal → Except PyExn Int
  | none => Except.error PyExn.typeError
  | some JsonVal.null => Except.error PyExn.typeError
  | some (JsonVal.num n) => Except.ok n
  | some (JsonVal.str s) =>
      match pyStrToInt s with
      | some n => Except.ok n
      | none => Except.error (PyExn.valueError ("invalid literal for int: " ++ s))

/-! ## main.py — weather -/

/-- The fixed Open-Meteo code → Russian description table of
`_weather_code_to_ru`. -/
def weatherCodeMapping : List (Int × String) :=
  [(0, "ясно"),
   (1, "преимущественно ясно"),
   (2, "переменная облачность"),
   (3, "пасмурно"),
   (45, "туман"),
   (48, "изморозь (туман)"),
   (51, "лёгкая морось"),
   (53, "умеренная морось"),
   (55, "сильная морось"),
   (56, "лёгкая переохлаждённая морось"),
   (57, "сильная переохлаждённая морось"),
   (61, "лёгкий дождь"),
   (63, "умеренный дождь"),
   (65, "сильный дождь"),
   (66, "лёгкий переохлаждённый дождь"),
   (67, "сильный переохлаждённый дождь"),
   (71, "лёгкий снег"),
   (73, "умеренный снег"),
   (75, "сильный снег"),
   (77, "снежные зёрна"),
   (80, "лёгкие ливни"),
   (81, "умеренные ливни"),
   (82, "сильные ливни"),
   (85, "лёгкие снегопады"),
   (86, "сильные снегопады"),
   (95, "гроза"),
   (96, "гроза с градом (лёгким)"),
   (99, "гроза с градом (сильным)")]

/-- `_weather_code_to_ru`: `mapping.get(weather_code, f"неизвестно (код
{weather_code})")`. -/
def weatherCodeToRu (weather_code : Int) : String :=
  match weatherCodeMapping.lookup weather_code with
  | some d => d
  | none => "неизвестно (код " ++ toString weather_code ++ ")"

/-- The `current` object of the Open-Meteo payload, each field as
`payload.get("current", \x7b\x7d).get(key)` would surface it. -/
structure CurrentPayload where
  temperature : Option JsonVal
  feels_like : Option JsonVal
  humidity : Option JsonVal
  wind_speed : Option JsonVal
  weather_code : Option JsonVal
  time : Option JsonVal
deriving DecidableEq, Repr

/-- The body of `_fetch_krasnodar_weather` after a successful HTTP
round-trip: convert the weather code (returning the fixed message when
`int()` raises `TypeError`/`ValueError`), then assemble the reply lines,
skipping absent fields. -/
def fetchKrasnodarWeatherBody (current : CurrentPayload) : String :=
  match pyInt current.weather_code with
  | Except.error _ => "Не удалось распознать ответ сервиса погоды."
  | Except.ok weather_code =>
      let description := weatherCodeToRu weather_code
      let parts : List String :=
        ["Погода в Краснодаре:"]
        ++ (if pyTruthy current.time then
              ["время: " ++ pyStr (current.time.getD JsonVal.null)] else [])
        ++ ["состояние: " ++ description]
        ++ (if isNotNone current.temperature then
              ["температура: " ++ pyStr (current.temperature.getD JsonVal.null) ++ "°C"]
            else [])
        ++ (if isNotNone current.feels_like then
              ["ощущается как: " ++ pyStr (current.feels_like.getD JsonVal.null) ++ "°C"]
            else [])
        ++ (if isNotNone current.humidity then
              ["влажность: " ++ pyStr (current.humidity.getD JsonVal.null) ++ "%"]
            else [])
        ++ (if isNotNone current.wind_speed then
              ["ветер: " ++ pyStr (current.wind_speed.getD JsonVal.null) ++ " м/с"]
            else [])
      String.intercalate "\n" parts

/-- `_fetch_krasnodar_weather` with the HTTP round-trip made explicit:
a network/HTTP failure propagates as the exception, a decoded payload is
processed by the body. -/
def fetchKrasnodarWeather (net : Except PyExn CurrentPayload) : Except PyExn String :=
  match net with
  | Except.error e => Except.error e
  | Except.ok current => Except.ok (fetchKrasnodarWeatherBody current)

/-- The `/weather` handler: catches `aiohttp.ClientError` and
`asyncio.TimeoutError`, maps each to its fixed text, sends exactly one
`message.answer`; any other exception escapes the handler. -/
def weather (fetched : Except PyExn String) : Except PyExn (List String) :=
  match fetched with
  | Except.ok t => Except.ok [t]
  | Except.error PyExn.clientError =>
      Except.ok ["Не удалось получить погоду: ошибка сети/сервиса."]
  | Except.error PyExn.timeoutError =>
      Except.ok ["Не удалось получить погоду: превышено время ожидания."]
  | Except.error e => Except.error e

/-! ## dz3.py — environment loading and the news handler -/

/-- The process environment: the two values the scripts read. -/
structure Env where
  token : Option String
  newsapiKey : Option String
deriving DecidableEq, Repr

/-- Error text of `_get_token`. -/
def tokenErrorMsg : String :=
  "Не найден TOKEN. Создайте файл .env рядом с main.py и добавьте строку TOKEN=ваш_токен_бота"

/-- Error text of `_get_newsapi_key`. -/
def newsapiErrorMsg : String :=
  "Не найден NEWSAPI_KEY. Добавьте в .env строку NEWSAPI_KEY=ваш_ключ_newsapi"

/-- `_get_token`: `if not token: raise RuntimeError(...)` — absent or
empty raises. -/
def getToken (env : Env) : Except PyExn String :=
  match env.token with
  | some t => if t == "" then Except.error (PyExn.runtimeError tokenErrorMsg) else Except.ok t
  | none => Except.error (PyExn.runtimeError tokenErrorMsg)

/-- `_get_newsapi_key`: same shape for `NEWSAPI_KEY`. -/
def getNewsapiKey (env : Env) : Except PyExn String :=
  match env.newsapiKey with
  | some k => if k == "" then Except.error (PyExn.runtimeError newsapiErrorMsg) else Except.ok k
  | none => Except.error (PyExn.runtimeError newsapiErrorMsg)

/-- Module-level startup of dz3.py: `bot = Bot(token=_get_token())`.
Only the token is read at import time; `_get_newsapi_key` is not called
here. -/
def dz3Startup (env : Env) : Except PyExn Unit :=
  match getToken env with
  | Except.ok _ => Except.ok ()
  | Except.error e => Except.error e

/-- `_fetch_forex_news_text`: reads the NEWSAPI key first (raising when
it is absent), then performs the HTTP queries and formatting, modelled
by their outcome `rest`. -/
def fetchForexNewsText (env : Env) (rest : Except PyExn String) : Except PyExn String :=
  match getNewsapiKey env with
  | Except.error e => Except.error e
  | Except.ok _ => rest

/-- The `/news` handler: catches `aiohttp.ClientError`,
`asyncio.TimeoutError` and `RuntimeError`, maps each to its text, sends
exactly one `message.answer`; any other exception escapes. -/
def news (fetched : Except PyExn String) : Except PyExn (List String) :=
  match fetched with
  | Except.ok t => Except.ok [t]
  | Except.error PyExn.clientError =>
      Except.ok ["Не удалось получить новости: ошибка сети/сервиса."]
  | Except.error PyExn.timeoutError =>
      Except.ok ["Не удалось получить новости: превышено время ожидания."]
  | Except.error (PyExn.runtimeError m) =>
      Except.ok ["Не удалось получить новости: " ++ m]
  | Except.error e => Except.error e

/-! ## main.py — translation and the translate-and-voice handler -/

/-- The outcome of the primary (Google mobile translate) attempt inside
`_translate_to_english`: a network error, a `re.error`, no regex match,
or a match whose `html.unescape(...).strip()` result is `s`. -/
inductive PrimaryOutcome where
  | netError
  | reError
  | noMatch
  | matched (s : String)
deriving DecidableEq, Repr

/-- The `translatedText` field of the LibreTranslate response:
absent, present but not a string, or a string. -/
inductive JsonField where
  | absent
  | notString
  | str (s : String)
deriving DecidableEq, Repr

/-- The primary attempt yielded no non-empty parsed result. -/
def primaryFails : PrimaryOutcome → Bool
  | PrimaryOutcome.matched s => s == ""
  | _ => true

/-- What `_translate_to_english` returns (or raises), plus whether the
LibreTranslate request was issued. -/
structure TranslateResult where
  result : Except PyExn String
  usedSecondary : Bool
deriving Repr

/-- The LibreTranslate leg of `_translate_to_english`: a failed POST
propagates; a payload without a non-blank string `translatedText`
raises `ValueError("Пустой перевод")`; otherwise the stripped text is
returned. -/
def libreTranslateStep (secondary : Except PyExn JsonField) : Except PyExn String :=
  match secondary with
  | Except.error e => Except.error e
  | Except.ok (JsonField.str s) =>
      if pyStrip s == "" then Except.error (PyExn.valueError "Пустой перевод")
      else Except.ok (pyStrip s)
  | Except.ok _ => Except.error (PyExn.valueError "Пустой перевод")

/-- `_translate_to_english`: try the primary provider; a non-empty
parsed result is returned at once; on `aiohttp.ClientError`, `re.error`,
no match or an empty match the code falls through to LibreTranslate. -/
def translateToEnglish (primary : PrimaryOutcome)
    (secondary : Except PyExn JsonField) : TranslateResult :=
  match primary with
  | PrimaryOutcome.matched s =>
      if s == "" then ⟨libreTranslateStep secondary, true⟩
      else ⟨Except.ok s, false⟩
  | _ => ⟨libreTranslateStep secondary, true⟩

/-- A reply sent by the translate-and-voice handler. -/
inductive Reply where
  | text (s : String)
  | voiceOgg
  | audioMp3
deriving DecidableEq, Repr

/-- The `translate_and_voice` handler over the outcomes of its effects:
the translation result, whether gTTS synthesis succeeded, whether ffmpeg
is on the PATH, and whether the mp3→ogg conversion plus voice send
succeeded.  Empty text returns silently; translation errors map to fixed
texts; after a successful synthesis the voice note is sent when
transcoding works and the original mp3 is sent otherwise. -/
def translateAndVoice (text : String) (translation : Except PyExn String)
    (ttsOk ffmpegAvailable convertAndSendOk : Bool) : Except PyExn (List Reply) :=
  if pyStrip text == "" then Except.ok []
  else
    match translation with
    | Except.error PyExn.clientError =>
        Except.ok [Reply.text "Не удалось перевести текст: ошибка сети/сервиса."]
    | Except.error PyExn.timeoutError =>
        Except.ok [Reply.text "Не удалось перевести текст."]
    | Except.error (PyExn.valueError _) =>
        Except.ok [Reply.text "Не удалось перевести текст."]
    | Except.error e => Except.error e
    | Except.ok translated =>
        if ttsOk then
          if ffmpegAvailable then
            if convertAndSendOk then Except.ok [Reply.text translated, Reply.voiceOgg]
            else Except.ok [Reply.text translated, Reply.audioMp3]
          else Except.ok [Reply.text translated, Reply.audioMp3]
        else Except.ok [Reply.text translated, Reply.text "Не удалось озвучить текст."]

end TgLesson

namespace TgLesson

/-! ## Theorems for claims C1–C4 -/

/-- C1: for a fresh session, after the `/start` trigger and three inbound
text messages `t1, t2, t3`, the record inserted into the durable `users`
table is `(t1, t2, t3)` — name, age, grade in order — and it is the only
insert performed for that session. -/
theorem dz_three_messages_single_insert (t1 t2 t3 : String)
    (h1 : isStartCommand t1 = false)
    (h2 : isStartCommand t2 = false)
    (h3 : isStartCommand t3 = false) :
    (dzRun ["/start", t1, t2, t3]).inserts = [(t1, t2, t3)] := by
  have hs : isStartCommand "/start" = true := rfl
  simp [dzRun, dzInit, dzHandle, hs, h1, h2, h3]

/-- Witness for C1 at `t1 = "Ann"`, `t2 = "12"`, `t3 = "6"`. -/
theorem dz_three_messages_single_insert_witness :
    (dzRun ["/start", "Ann", "12", "6"]).inserts = [("Ann", "12", "6")] :=
  dz_three_messages_single_insert "Ann" "12" "6"
    (by decide) (by decide) (by decide)

/-- C2: no durable write happens before the sequence is complete: after
the `/start` trigger alone, or after one or two inbound text messages,
the `users` table has received no insert. -/
theorem dz_no_partial_insert (t1 t2 : String)
    (h1 : isStartCommand t1 = false)
    (h2 : isStartCommand t2 = false) :
    (dzRun ["/start"]).inserts = [] ∧
    (dzRun ["/start", t1]).inserts = [] ∧
    (dzRun ["/start", t1, t2]).inserts = [] := by
  have hs : isStartCommand "/start" = true := rfl
  refine ⟨by simp [dzRun, dzInit, dzHandle, hs], ?_, ?_⟩ <;>
    simp [dzRun, dzInit, dzHandle, hs, h1, h2]

/-- Witness for C2 at `t1 = "Ann"`, `t2 = "12"`. -/
theorem dz_no_partial_insert_witness :
    (dzRun ["/start", "Ann"]).inserts = [] ∧
    (dzRun ["/start", "Ann", "12"]).inserts = [] :=
  ⟨(dz_no_partial_insert "Ann" "12" (by decide) (by decide)).2.1,
   (dz_no_partial_insert "Ann" "12" (by decide) (by decide)).2.2⟩

/-- C3 counterexample: after `/start`, a name `"A"`, and a second
`/start`, the partially collected name is still stored in the session
data — the begin trigger does not discard partial fields, contrary to
the claim that the session's stored data is reset. -/
theorem dz_restart_keeps_partial_data :
    (dzRun ["/start", "A", "/start"]).data.name = some "A" ∧
    (dzRun ["/start", "A", "/start"]).data.name ≠ none := by
  constructor <;> decide

/-- C3 amended: a `/start` trigger received in any session state moves
the session to `AWAITING_NAME` and sends the name prompt, but leaves the
partially collected fields and the table untouched (the data is not
discarded; it is only overwritten later, field by field, as the
restarted sequence progresses). -/
theorem dz_restart_behavior (st : DzState) (msg : String)
    (h : isStartCommand msg = true) :
    (dzHandle st msg).step = FormStep.awaitingName ∧
    (dzHandle st msg).replies = st.replies ++ ["Привет! Как тебя зовут?"] ∧
    (dzHandle st msg).data = st.data ∧
    (dzHandle st msg).inserts = st.inserts := by
  simp [dzHandle, h]

/-- Witness for the amended C3: restart from a mid-sequence state. -/
theorem dz_restart_behavior_witness :
    (dzHandle (dzRun ["/start", "A"]) "/start").step = FormStep.awaitingName ∧
    (dzHandle (dzRun ["/start", "A"]) "/start").replies =
      (dzRun ["/start", "A"]).replies ++ ["Привет! Как тебя зовут?"] ∧
    (dzHandle (dzRun ["/start", "A"]) "/start").data = (dzRun ["/start", "A"]).data ∧
    (dzHandle (dzRun ["/start", "A"]) "/start").inserts = (dzRun ["/start", "A"]).inserts :=
  dz_restart_behavior (dzRun ["/start", "A"]) "/start" (by decide)

/-- C4 counterexample: in the sequence `/start, "A", /start, "B"` the
name field is first set to `"A"` and then overwritten with the different
value `"B"` — so a field that has been set can be overwritten. -/
theorem dz_field_overwritten :
    (dzRun ["/start", "A"]).data.name = some "A" ∧
    (dzRun ["/start", "A", "/start", "B"]).data.name = some "B" := by
  constructor <;> decide

/-- C4 amended: every inbound text message handled while the session is
in a collecting state (`AWAITING_NAME`, `AWAITING_AGE`, `AWAITING_GRADE`)
writes exactly one field of the session record; however, fields are not
write-once: a mid-dialogue begin trigger restarts the sequence and the
subsequent messages overwrite the previously set fields (and, the state
never leaving `AWAITING_GRADE`, any message after the third overwrites
the grade). -/
theorem dz_one_field_per_message (st : DzState) (t : String)
    (hs : st.step ≠ FormStep.idle)
    (ht : isStartCommand t = false) :
    updatesExactlyOneField st.data (dzHandle st t).data t := by
  cases h : st.step with
  | idle => exact absurd h hs
  | awaitingName =>
      exact Or.inl (by simp [dzHandle, ht, h])
  | awaitingAge =>
      exact Or.inr (Or.inl (by simp [dzHandle, ht, h]))
  | awaitingGrade =>
      refine Or.inr (Or.inr ?_)
      simp only [dzHandle, ht, Bool.false_eq_true, if_false, h]
      cases hn : st.data.name <;> cases ha : st.data.age <;> simp

/-- Witness for the amended C4 in the `AWAITING_AGE` state. -/
theorem dz_one_field_per_message_witness :
    updatesExactlyOneField (dzRun ["/start", "Ann"]).data
      (dzHandle (dzRun ["/start", "Ann"]) "12").data "12" :=
  dz_one_field_per_message (dzRun ["/start", "Ann"]) "12"
    (by decide) (by decide)

/-! ## Theorems for claims C5–C10 -/

/-- A key absent from an association list is not found by `lookup`. -/
theorem lookup_eq_none_of_not_mem_keys (c : Int) (l : List (Int × String))
    (h : c ∉ l.map Prod.fst) : l.lookup c = none := by
  induction l with
  | nil => rfl
  | cons p t ih =>
      simp only [List.map_cons, List.mem_cons, not_or] at h
      obtain ⟨h1, h2⟩ := h
      cases p with
      | mk k v =>
          simp only [List.lookup]
          have : (c == k) = false := by
            exact beq_eq_false_iff_ne.mpr (by simpa using h1)
          rw [this]
          exact ih h2

/-- C5: for both handlers, a network failure (`aiohttp.ClientError` or
`asyncio.TimeoutError`) raised by the outbound HTTP call is caught at
the handler boundary — the handler returns normally — and exactly one
reply with the fixed text of that failure category is sent. -/
theorem handler_network_error_reply (e : PyExn)
    (h : e = PyExn.clientError ∨ e = PyExn.timeoutError) :
    news (Except.error e) =
      Except.ok [if e = PyExn.clientError
        then "Не удалось получить новости: ошибка сети/сервиса."
        else "Не удалось получить новости: превышено время ожидания."] ∧
    weather (Except.error e) =
      Except.ok [if e = PyExn.clientError
        then "Не удалось получить погоду: ошибка сети/сервиса."
        else "Не удалось получить погоду: превышено время ожидания."] := by
  rcases h with rfl | rfl <;> simp [news, weather]

/-- Witness for C5 at a client (network) error. -/
theorem handler_network_error_reply_witness :
    news (Except.error PyExn.clientError) =
      Except.ok ["Не удалось получить новости: ошибка сети/сервиса."] ∧
    weather (Except.error PyExn.clientError) =
      Except.ok ["Не удалось получить погоду: ошибка сети/сервиса."] := by
  have h := handler_network_error_reply PyExn.clientError (Or.inl rfl)
  simpa using h

/-- C6: a weather code outside the keys of the fixed table maps to the
fallback entry, whose text contains the literal numeric code; a code in
the table maps to the table's description. -/
theorem weather_code_lookup (c : Int) :
    (c ∉ weatherCodeMapping.map Prod.fst →
      ∃ pre post, weatherCodeToRu c = pre ++ toString c ++ post) ∧
    (∀ p ∈ weatherCodeMapping, weatherCodeToRu p.1 = p.2) := by
  constructor
  · intro h
    refine ⟨"неизвестно (код ", ")", ?_⟩
    rw [weatherCodeToRu, lookup_eq_none_of_not_mem_keys c weatherCodeMapping h]
  · decide

/-- Witness for C6: code 4 is not in the table and falls back to a text
containing "4"; code 0 is in the table and maps to its description. -/
theorem weather_code_lookup_witness :
    (∃ pre post, weatherCodeToRu 4 = pre ++ toString (4 : Int) ++ post) ∧
    weatherCodeToRu 0 = "ясно" :=
  ⟨(weather_code_lookup 4).1 (by decide),
   (weather_code_lookup 0).2 (0, "ясно") (by simp [weatherCodeMapping])⟩

/-- C7: when the translation succeeded, synthesis succeeded, and ffmpeg
is unavailable or the mp3→ogg conversion fails, the handler returns
normally and replies with the translated text followed by the original
synthesized mp3 audio. -/
theorem translate_voice_mp3_fallback (text translated : String)
    (ffmpegAvailable convertAndSendOk : Bool)
    (htext : (pyStrip text == "") = false)
    (h : ffmpegAvailable = false ∨ convertAndSendOk = false) :
    translateAndVoice text (Except.ok translated) true ffmpegAvailable convertAndSendOk =
      Except.ok [Reply.text translated, Reply.audioMp3] := by
  rcases h with rfl | rfl
  · simp [translateAndVoice, htext]
  · cases ffmpegAvailable <;> simp [translateAndVoice, htext]

/-- Witness for C7 with ffmpeg present but a failing conversion. -/
theorem translate_voice_mp3_fallback_witness :
    translateAndVoice "привет" (Except.ok "hello") true true false =
      Except.ok [Reply.text "hello", Reply.audioMp3] :=
  translate_voice_mp3_fallback "привет" "hello" true false (by decide) (Or.inr rfl)

/-- C8: the secondary (LibreTranslate) request is issued exactly when
the primary (Google mobile) attempt fails to yield a non-empty parsed
result; a non-empty primary result is returned directly without the
secondary request; and when the secondary runs and returns a non-blank
`translatedText`, its stripped text is the result. -/
theorem translate_fallback (p : PrimaryOutcome) (secondary : Except PyExn JsonField) :
    ((translateToEnglish p secondary).usedSecondary = primaryFails p) ∧
    (∀ s, p = PrimaryOutcome.matched s → (s == "") = false →
      translateToEnglish p secondary = ⟨Except.ok s, false⟩) ∧
    (∀ t, primaryFails p = true → secondary = Except.ok (JsonField.str t) →
      (pyStrip t == "") = false →
      (translateToEnglish p secondary).result = Except.ok (pyStrip t)) := by
  refine ⟨?_, ?_, ?_⟩
  · cases p with
    | matched s =>
        by_cases hs : s == ""
        · simp [translateToEnglish, primaryFails, hs]
        · simp [translateToEnglish, primaryFails, hs]
    | netError => rfl
    | reError => rfl
    | noMatch => rfl
  · rintro s rfl hs
    simp [translateToEnglish, hs]
  · rintro t hp rfl ht
    cases p with
    | matched s =>
        have hs : (s == "") = true := by simpa [primaryFails] using hp
        simp [translateToEnglish, hs, libreTranslateStep, ht]
    | netError => simp [translateToEnglish, libreTranslateStep, ht]
    | reError => simp [translateToEnglish, libreTranslateStep, ht]
    | noMatch => simp [translateToEnglish, libreTranslateStep, ht]

/-- Witness for C8: a failing primary with a successful secondary. -/
theorem translate_fallback_witness :
    (translateToEnglish PrimaryOutcome.netError
        (Except.ok (JsonField.str " hi "))).usedSecondary = true ∧
    (translateToEnglish PrimaryOutcome.netError
        (Except.ok (JsonField.str " hi "))).result = Except.ok (pyStrip " hi ") :=
  ⟨(translate_fallback PrimaryOutcome.netError (Except.ok (JsonField.str " hi "))).1,
   (translate_fallback PrimaryOutcome.netError (Except.ok (JsonField.str " hi "))).2.2
     " hi " rfl rfl (by decide)⟩

/-- C9 counterexample: with a token present but no NEWSAPI key, the
dz3.py module-level startup succeeds — the process starts, so the
absence of the news API key is not a fatal startup error. -/
theorem newsapi_key_absent_startup_succeeds :
    dz3Startup { token := some "t", newsapiKey := none } = Except.ok () := rfl

/-- C9 amended: only the bot token is loaded at process start and its
absence is fatal; the news API key is read per `/news` request inside
the fetch, and its absence is reported later as the handler's error
reply to that request, while startup does not depend on it. -/
theorem env_loading_behavior (env : Env) (rest : Except PyExn String) :
    (env.token = none →
      dz3Startup env = Except.error (PyExn.runtimeError tokenErrorMsg)) ∧
    (env.newsapiKey = none →
      news (fetchForexNewsText env rest) =
        Except.ok ["Не удалось получить новости: " ++ newsapiErrorMsg]) ∧
    (env.newsapiKey = none →
      dz3Startup env = dz3Startup { env with newsapiKey := some "k" }) := by
  refine ⟨?_, ?_, ?_⟩
  · intro h
    simp [dz3Startup, getToken, h]
  · intro h
    simp [news, fetchForexNewsText, getNewsapiKey, h]
  · intro h
    simp [dz3Startup, getToken]

/-- Witness for the amended C9 at a concrete environment. -/
theorem env_loading_behavior_witness :
    dz3Startup { token := none, newsapiKey := some "k" } =
      Except.error (PyExn.runtimeError tokenErrorMsg) ∧
    news (fetchForexNewsText { token := some "t", newsapiKey := none } (Except.ok "x")) =
      Except.ok ["Не удалось получить новости: " ++ newsapiErrorMsg] :=
  ⟨(env_loading_behavior { token := none, newsapiKey := some "k" } (Except.ok "x")).1 rfl,
   (env_loading_behavior { token := some "t", newsapiKey := none } (Except.ok "x")).2.1 rfl⟩

/-- C10: whenever `int()` on the payload's `weather_code` raises
(absent, null, or a non-numeric string), `_fetch_krasnodar_weather`
returns the fixed unrecognized-response text instead of raising, no
matter which other fields are present. -/
theorem weather_unparsable_code (current : CurrentPayload)
    (h : ∃ e, pyInt current.weather_code = Except.error e) :
    fetchKrasnodarWeatherBody current = "Не удалось распознать ответ сервиса погоды." ∧
    fetchKrasnodarWeather (Except.ok current) =
      Except.ok "Не удалось распознать ответ сервиса погоды." := by
  obtain ⟨e, he⟩ := h
  constructor
  · rw [fetchKrasnodarWeatherBody, he]
  · rw [fetchKrasnodarWeather, fetchKrasnodarWeatherBody, he]

/-- Witness for C10: temperature and the other fields present, but a
non-numeric weather code. -/
theorem weather_unparsable_code_witness :
    fetchKrasnodarWeatherBody
      { temperature := some (JsonVal.num 20), feels_like := some (JsonVal.num 18),
        humidity := some (JsonVal.num 60), wind_speed := some (JsonVal.num 3),
        weather_code := some (JsonVal.str "abc"), time := some (JsonVal.str "2026-01-01") } =
      "Не удалось распознать ответ сервиса погоды." :=
  (weather_unparsable_code
    { temperature := some (JsonVal.num 20), feels_like := some (JsonVal.num 18),
      humidity := some (JsonVal.num 60), wind_speed := some (JsonVal.num 3),
      weather_code := some (JsonVal.str "abc"), time := some (JsonVal.str "2026-01-01") }
    ⟨PyExn.valueError ("invalid literal for int: " ++ "abc"), rfl⟩).1

end TgLesson
